import Mathlib

/-!
Verification of the lambda-gha capacity-aware provisioning engine.

This file gives a shallow embedding, in Lean 4, of the parts of the
lambda-gha Python sources that the specification talks about:

* src/lambda_gha/errors.py   — error taxonomy and classify_api_error
* src/lambda_gha/start.py    — StartLambdaLabs.filter_available_options,
  StartLambdaLabs.create_instances (the provisioning engine),
  StartLambdaLabs.wait_until_ready (the readiness poller)

The I/O boundary is abstracted as data: the availability response is an
association list, the launch API is an oracle indexed by the global call
counter, and the per-sweep status polls of the readiness poller are an
oracle indexed by sweep number and instance id.  Side effects (launch
calls, sleeps, ledger appends, summary writes, workflow-command
emissions) are recorded in explicit traces so that theorems can speak
about them.  Everything is computable; witnesses evaluate the
definitions on concrete inputs.
-/

set_option autoImplicit false

namespace LambdaGha

/-! ## Strings: lower-casing, code normalization, substring search

Python uses str.lower(), str.replace(" ", "-") and the `in` substring
operator.  The payloads involved are ASCII, which Char.toLower handles
identically to Python. -/

/-- Lower-case every character of a string (ASCII, as in the API payloads). -/
def lowerStr (s : String) : String :=
  String.mk (s.data.map Char.toLower)

/-- Embeds code.lower().replace(" ", "-") from classify_api_error: spaces
become hyphens, everything else is lower-cased. -/
def normalizeCode (s : String) : String :=
  String.mk (s.data.map (fun c => if c = ' ' then '-' else c.toLower))

/-- Does pat occur as a contiguous sublist of l?  This is the Python
substring operator on the underlying character lists. -/
def listContainsSub (pat : List Char) : List Char → Bool
  | [] => pat.isEmpty
  | c :: rest => pat.isPrefixOf (c :: rest) || listContainsSub pat rest

/-- Does pat occur as a substring of s (Python: pat in s)? -/
def containsWord (s pat : String) : Bool :=
  listContainsSub pat.data s.data

/-! ## errors.py: error taxonomy, LaunchAttempt, classify_api_error -/

/-- Closed taxonomy of classified Lambda API errors, from errors.py:
CapacityError, RateLimitError (with optional retry_after), and
ConfigurationError are subclasses of the base LambdaGHAError; the base
class itself is the fourth, unrecognized ("Unknown") case. -/
inductive LambdaGHAError where
  | capacity (instance_type region message : String)
  | rateLimit (message : String) (retry_after : Option Int)
  | configuration (message : String)
  | base (message : String)
deriving DecidableEq, Repr

/-- Message stored by CapacityError.__init__: the given message, or the
default text when it is empty (Python: message or f-string). -/
def capacityErrorMessage (instance_type region message : String) : String :=
  if message = "" then "No capacity for " ++ instance_type ++ " in " ++ region
  else message

/-- Result of str(e) on a classified error: each constructor carries the
message passed to Exception.__init__. -/
def errorText : LambdaGHAError → String
  | .capacity t r m => capacityErrorMessage t r m
  | .rateLimit m _ => m
  | .configuration m => m
  | .base m => m

/-- Error codes from the Lambda API that indicate capacity issues, from
errors.py (CAPACITY_ERROR_CODES). -/
def CAPACITY_ERROR_CODES : List String :=
  ["insufficient-capacity", "insufficient_capacity", "no-capacity", "no_capacity"]

/-- Error codes that indicate rate limiting, from errors.py
(RATE_LIMIT_ERROR_CODES). -/
def RATE_LIMIT_ERROR_CODES : List String :=
  ["rate-limit", "rate_limit", "too-many-requests", "too_many_requests"]

/-- Error codes that are not retryable, from errors.py
(NON_RETRYABLE_ERROR_CODES). -/
def NON_RETRYABLE_ERROR_CODES : List String :=
  ["invalid-instance-type", "invalid_instance_type",
   "invalid-region", "invalid_region",
   "authentication-error", "authentication_error",
   "quota-exceeded", "quota_exceeded",
   "invalid-ssh-key", "invalid_ssh_key"]

/-- Fields of the inner error object of a Lambda API error response
(error_response["error"]): code and message default to the empty values
used by dict.get in the source, retry_after is the optional numeric
retry hint. -/
structure APIErrorBody where
  code : String := ""
  message : String := ""
  retry_after : Option Int := none
deriving DecidableEq, Repr

/-- Embeds classify_api_error from errors.py.  The code is normalized
(lower-case, spaces to hyphens); each of the first two branches tests
set membership OR a case-insensitive substring of the message, the
third branch tests only set membership, and the fallback is the base
error. -/
def classify_api_error (e : APIErrorBody) : LambdaGHAError :=
  let code := normalizeCode e.code
  let message := e.message
  if CAPACITY_ERROR_CODES.contains code || containsWord (lowerStr message) "capacity" then
    .capacity "" "" message
  else if RATE_LIMIT_ERROR_CODES.contains code || containsWord (lowerStr message) "rate" then
    .rateLimit message e.retry_after
  else if NON_RETRYABLE_ERROR_CODES.contains code then
    .configuration message
  else
    .base message

/-- Record of a single instance launch attempt, from errors.py
(LaunchAttempt): attempt is the 1-based try index within one
(instance_type, region) option on the launch path, 0 on the
availability pre-check path. -/
structure LaunchAttempt where
  instance_type : String
  region : String
  attempt : Nat
  success : Bool := false
  error : String := ""
  instance_id : String := ""
deriving DecidableEq, Repr

/-! ## start.py: availability filter -/

/-- Embeds StartLambdaLabs.filter_available_options, with the
get_availability response passed in as an association list from
instance type to the regions with capacity (dict keys are unique).
Types with no available regions are skipped entirely; otherwise each
requested region present in the availability list contributes one pair,
in the caller-supplied order, instance-type major. -/
def filter_available_options (availability : List (String × List String))
    (instance_types regions : List String) : List (String × String) :=
  match instance_types with
  | [] => []
  | t :: rest =>
    let available_regions := (availability.lookup t).getD []
    (if available_regions.isEmpty then []
     else (regions.filter (fun r => available_regions.contains r)).map (fun r => (t, r)))
    ++ filter_available_options availability rest regions

/-- Ordered cross-product of instance types and regions, instance-type
major: the candidate list used by create_instances when availability
checking is disabled, and the iteration order of the pre-check ledger. -/
def crossOptions (instance_types regions : List String) : List (String × String) :=
  match instance_types with
  | [] => []
  | t :: rest => regions.map (fun r => (t, r)) ++ crossOptions rest regions

/-! ## start.py: provisioning engine (create_instances) -/

/-- Outcome of one call to _launch_single_instance, abstracting the
launch API: either an instance id, or the classified error the call
raises (classify_api_error applied to the error response). -/
inductive LaunchResult where
  | ok (instance_id : String)
  | err (e : LambdaGHAError)
deriving DecidableEq, Repr

/-- Workflow-command emissions of the engine (annotations.py):
emit_capacity_warning and emit_all_exhausted_error. -/
inductive Emitted where
  | capacityWarning (instance_type region next_option : String)
  | allExhausted (attempts : List LaunchAttempt)
deriving DecidableEq, Repr

/-- Embeds StartLambdaLabs._get_next_option_from_list: the description of
the next option after (current_type, current_region) in the filtered
options list, or the empty string when exhausted or absent. -/
def get_next_option_from_list (options : List (String × String))
    (current_type current_region : String) : String :=
  match options.findIdx? (fun p => p = (current_type, current_region)) with
  | none => ""
  | some i =>
    match options.get? (i + 1) with
    | none => ""
    | some (next_type, next_region) =>
      if next_type = current_type then next_type ++ " in " ++ next_region
      else next_type

/-- Outcome of the retry loop for one (instance_type, region) option. -/
inductive TryOutcome where
  | success (instance_id : String)
  | moveOn
  | fatalConfig (message : String)
  | fatalBase (message : String)
deriving DecidableEq, Repr

/-- Trace and outcome of the retry loop for one option: launch-call
counter after the loop, ledger rows appended, workflow commands
emitted, backoff sleeps performed (in seconds), and the outcome. -/
structure TryResult where
  calls : Nat
  attempts : List LaunchAttempt
  events : List Emitted
  sleeps : List Rat
  outcome : TryOutcome
deriving DecidableEq, Repr

/-- Embeds the inner retry loop of create_instances (for retry in
range(retry_count)) for one option (t, r).  launch is the call oracle
indexed by the global launch-call counter; retriesLeft counts the
remaining range iterations (retry_count - retryIdx), so the Python
guard retry < retry_count - 1 is retriesLeft not equal 1 here.
A CapacityError appends its row, emits a capacity warning naming the
next option, and moves on without retrying; a RateLimitError below the
ceiling sleeps max(retry_delay * 2 ^ retryIdx, retry_after) when the
hint is present and nonzero (Python truthiness) and retries the same
option; at the ceiling it moves on without sleeping; a
ConfigurationError appends its row and aborts; the base LambdaGHAError
is not caught by any except clause, so no row is appended and it
aborts. -/
def launchRetries (launch : Nat → LaunchResult) (retry_delay : Rat)
    (t r next_desc : String) :
    Nat → Nat → Nat → TryResult
  | 0, _, calls => ⟨calls, [], [], [], .moveOn⟩
  | retriesLeft + 1, retryIdx, calls =>
    let row : LaunchAttempt := { instance_type := t, region := r, attempt := retryIdx + 1 }
    match launch calls with
    | .ok iid =>
      ⟨calls + 1, [{ row with success := true, instance_id := iid }], [], [], .success iid⟩
    | .err (.capacity et er em) =>
      ⟨calls + 1, [{ row with error := capacityErrorMessage et er em }],
        [.capacityWarning t r next_desc], [], .moveOn⟩
    | .err (.rateLimit m ra) =>
      if retriesLeft = 0 then
        ⟨calls + 1, [{ row with error := m }], [], [], .moveOn⟩
      else
        let d0 := retry_delay * 2 ^ retryIdx
        let d := match ra with
          | some a => if a = 0 then d0 else max d0 (a : Rat)
          | none => d0
        let rest := launchRetries launch retry_delay t r next_desc retriesLeft (retryIdx + 1) (calls + 1)
        ⟨rest.calls, { row with error := m } :: rest.attempts, rest.events,
          d :: rest.sleeps, rest.outcome⟩
    | .err (.configuration m) =>
      ⟨calls + 1, [{ row with error := m }], [], [], .fatalConfig m⟩
    | .err (.base m) =>
      ⟨calls + 1, [], [], [], .fatalBase m⟩

/-- Outcome of walking the option list for one runner token. -/
inductive TokenOutcome where
  | success (instance_id instance_type region : String)
  | exhausted
  | fatalConfig (message : String)
  | fatalBase (message : String)
deriving DecidableEq, Repr

/-- Trace and outcome of the option walk for one runner token: the rows
are this token's token_attempts list. -/
structure TokenResult where
  calls : Nat
  attempts : List LaunchAttempt
  events : List Emitted
  sleeps : List Rat
  outcome : TokenOutcome
deriving DecidableEq, Repr

/-- Embeds the option loop of create_instances for one runner token:
each option runs the retry loop; success stops the walk, moveOn
(capacity, or rate-limit ceiling) advances to the next option, and the
two fatal outcomes abort the walk. -/
def walkOptions (launch : Nat → LaunchResult) (retry_count : Nat) (retry_delay : Rat)
    (allOptions : List (String × String)) :
    List (String × String) → Nat → TokenResult
  | [], calls => ⟨calls, [], [], [], .exhausted⟩
  | (t, r) :: rest, calls =>
    let res := launchRetries launch retry_delay t r
      (get_next_option_from_list allOptions t r) retry_count 0 calls
    match res.outcome with
    | .success iid => ⟨res.calls, res.attempts, res.events, res.sleeps, .success iid t r⟩
    | .moveOn =>
      let restRes := walkOptions launch retry_count retry_delay allOptions rest res.calls
      ⟨restRes.calls, res.attempts ++ restRes.attempts, res.events ++ restRes.events,
        res.sleeps ++ restRes.sleeps, restRes.outcome⟩
    | .fatalConfig m => ⟨res.calls, res.attempts, res.events, res.sleeps, .fatalConfig m⟩
    | .fatalBase m => ⟨res.calls, res.attempts, res.events, res.sleeps, .fatalBase m⟩

/-- One entry of the id_dict result of create_instances, restricted to
the fields the specification's claims speak about (the label and the
environment payload depend on a randomly generated label and the
process environment and are therefore not modelled). -/
structure InstanceGrant where
  instance_id : String
  instance_type : String
  region : String
deriving DecidableEq, Repr

/-- Fatal outcome that escapes the token loop by an uncaught raise. -/
inductive LoopFatal where
  | config (message : String)
  | base (message : String)
deriving DecidableEq, Repr

/-- Trace of the token loop: ledger is all_attempts; grants is id_dict
in insertion order; fatal records an exception escaping the loop. -/
structure TokensResult where
  calls : Nat
  ledger : List LaunchAttempt
  events : List Emitted
  sleeps : List Rat
  grants : List InstanceGrant
  fatal : Option LoopFatal
deriving DecidableEq, Repr

/-- Embeds the token loop of create_instances over the number of runner
tokens.  On success or exhaustion the token's rows are extended into
all_attempts and the loop continues; on a ConfigurationError the rows
are extended and the exception propagates; on the uncaught base error
the extension at the end of the loop body is never reached, so the
token's rows are dropped from the ledger. -/
def runTokens (launch : Nat → LaunchResult) (retry_count : Nat) (retry_delay : Rat)
    (options : List (String × String)) :
    Nat → Nat → TokensResult
  | 0, calls => ⟨calls, [], [], [], [], none⟩
  | n + 1, calls =>
    let res := walkOptions launch retry_count retry_delay options options calls
    match res.outcome with
    | .success iid t r =>
      let rest := runTokens launch retry_count retry_delay options n res.calls
      ⟨rest.calls, res.attempts ++ rest.ledger, res.events ++ rest.events,
        res.sleeps ++ rest.sleeps, ⟨iid, t, r⟩ :: rest.grants, rest.fatal⟩
    | .exhausted =>
      let rest := runTokens launch retry_count retry_delay options n res.calls
      ⟨rest.calls, res.attempts ++ rest.ledger, res.events ++ rest.events,
        res.sleeps ++ rest.sleeps, rest.grants, rest.fatal⟩
    | .fatalConfig m => ⟨res.calls, res.attempts, res.events, res.sleeps, [], some (.config m)⟩
    | .fatalBase m => ⟨res.calls, [], res.events, res.sleeps, [], some (.base m)⟩

/-- The ledger rows appended on the pre-check fail-fast path of
create_instances: one row per (instance_type, region) pair of the full
cross-product, with attempt 0 and the pre-check error text. -/
def precheckLedger (instance_types regions : List String) : List LaunchAttempt :=
  (crossOptions instance_types regions).map (fun p =>
    { instance_type := p.1, region := p.2, attempt := 0,
      error := "No capacity (pre-check)" })

/-- Terminal outcome of create_instances: normal return, or the
exception type that propagates to the caller. -/
inductive RunOutcome where
  | ok
  | valueError (message : String)
  | allExhausted (attempts : List LaunchAttempt)
  | configError (message : String)
  | baseError (message : String)
deriving DecidableEq, Repr

/-- Full trace of one create_instances run: availability_calls counts
get_availability requests, calls counts launch requests, ledger is
all_attempts, summaries records each write_summary call by the success
flag passed to format_launch_summary, grants is the returned id_dict
(empty when an exception propagates instead of a return). -/
structure RunResult where
  availability_calls : Nat
  calls : Nat
  ledger : List LaunchAttempt
  events : List Emitted
  sleeps : List Rat
  summaries : List Bool
  grants : List InstanceGrant
  outcome : RunOutcome
deriving DecidableEq, Repr

/-- Constructor parameters of StartLambdaLabs that create_instances
consults, with the defaults of the dataclass.  Fields that only feed
the environment payload, instance naming or authentication are not
modelled. -/
structure StartLambdaLabs where
  instance_types : List String := []
  regions : List String := []
  ssh_key_names : List String := []
  gh_runner_tokens : List String := []
  runner_release : String := ""
  retry_count : Nat := 1
  retry_delay : Rat := 5
  check_availability : Bool := true
deriving DecidableEq, Repr

/-- Shorthand for the trace of a run that raised ValueError during input
validation: no API calls, no ledger rows, no summaries, no grants. -/
def valueErrorResult (message : String) : RunResult :=
  ⟨0, 0, [], [], [], [], [], .valueError message⟩

/-- Tail of create_instances after the token loop: a ConfigurationError
or the uncaught base error propagates as-is (no summary is written on
these paths); otherwise an empty id_dict writes the failure summary,
emits the all-exhausted error and raises with the full ledger, and a
nonempty id_dict writes the success summary and returns. -/
def finishRun (acalls : Nat) (res : TokensResult) : RunResult :=
  match res.fatal with
  | some (.config m) =>
    ⟨acalls, res.calls, res.ledger, res.events, res.sleeps, [], [], .configError m⟩
  | some (.base m) =>
    ⟨acalls, res.calls, res.ledger, res.events, res.sleeps, [], [], .baseError m⟩
  | none =>
    if res.grants = [] then
      ⟨acalls, res.calls, res.ledger, res.events ++ [.allExhausted res.ledger],
        res.sleeps, [false], [], .allExhausted res.ledger⟩
    else
      ⟨acalls, res.calls, res.ledger, res.events, res.sleeps, [true],
        res.grants, .ok⟩

/-- Embeds StartLambdaLabs.create_instances.  action_ref is the
INPUT_ACTION_REF environment value (resolve_ref_to_sha is not modelled;
it only produces the action_sha string of the environment payload).
availability is the get_availability response consulted when
check_availability is set; launch is the launch-call oracle.  Input
validation happens before any API call or ledger append; an empty
filtered option list fails fast with the pre-check ledger; otherwise
the token loop runs, and a summary is written exactly on the normal
return and the all-exhausted raise. -/
def create_instances (S : StartLambdaLabs) (action_ref : Option String)
    (availability : List (String × List String))
    (launch : Nat → LaunchResult) : RunResult :=
  if S.gh_runner_tokens = [] then valueErrorResult "No GitHub runner tokens provided"
  else if S.runner_release = "" then valueErrorResult "No runner release provided"
  else if S.instance_types = [] then valueErrorResult "No instance types provided"
  else if S.regions = [] then valueErrorResult "No regions provided"
  else if S.ssh_key_names = [] then valueErrorResult "No SSH key names provided"
  else if action_ref.getD "" = "" then valueErrorResult "action_ref is required"
  else
    let acalls := if S.check_availability then 1 else 0
    let options :=
      if S.check_availability then
        filter_available_options availability S.instance_types S.regions
      else
        crossOptions S.instance_types S.regions
    if S.check_availability ∧ options = [] then
      let attempts := precheckLedger S.instance_types S.regions
      ⟨acalls, 0, attempts, [.allExhausted attempts], [], [false], [], .allExhausted attempts⟩
    else
      finishRun acalls
        (runTokens launch S.retry_count S.retry_delay options
          S.gh_runner_tokens.length 0)

/-! ## start.py: readiness poller (wait_until_ready) -/

/-- Outcome of one GET /instances/{id} status poll, abstracting the
HTTP layer: a JSON body with status, ip and hostname; a 404 (treated as
still provisioning); or another HTTP error (re-raised). -/
inductive PollResult where
  | ok (status ip hostname : String)
  | notFound
  | httpErr (code : Nat)
deriving DecidableEq, Repr

/-- Fatal condition raised from inside one poll sweep. -/
inductive SweepFatal where
  | terminated (message : String)
  | httpErr (code : Nat)
deriving DecidableEq, Repr

/-- One throttled status log line: instance id, elapsed seconds at the
time of the line, and the status text shown ("notfound" stands for the
not-found-yet line of the 404 branch). -/
structure LogLine where
  instance_id : String
  elapsed : Nat
  status : String
deriving DecidableEq, Repr

/-- Dict assignment last_log_time[k] = v on an association list. -/
def setKey (l : List (String × Nat)) (k : String) (v : Nat) : List (String × Nat) :=
  match l with
  | [] => [(k, v)]
  | (k2, v2) :: rest => if k2 = k then (k, v) :: rest else (k2, v2) :: setKey rest k v

/-- Python guard of the throttled logging in wait_until_ready:
elapsed - last_log >= 30 or last_log == 0 (integer arithmetic). -/
def shouldLog (elapsed last_log : Nat) : Bool :=
  ((elapsed : Int) - (last_log : Int) ≥ 30) || last_log = 0

/-- State carried out of one poll sweep: the instances still pending, the
details gathered for instances that went active (id and ip), the
updated last-log-time dict, the log lines printed during the sweep, and
an exception if one was raised mid-sweep (later instances of the sweep
are then never polled). -/
structure SweepResult where
  stillPending : List String
  newDetails : List (String × String)
  lastLog : List (String × Nat)
  logs : List LogLine
  fatal : Option SweepFatal
deriving DecidableEq, Repr

/-- Embeds one sweep of the wait_until_ready loop body: each pending
instance is polled once; "active" records details and drops the
instance from pending; "terminated" or "terminating" raises
immediately; any other status, and a 404, keep the instance pending and
print a throttled status line; a non-404 HTTP error is re-raised.
Python iterates a set; the insertion order of the id list stands in for
that unspecified iteration order. -/
def pollSweep (poll : String → PollResult) (elapsed : Nat) :
    List String → List (String × Nat) → SweepResult
  | [], lastLog => ⟨[], [], lastLog, [], none⟩
  | iid :: rest, lastLog =>
    match poll iid with
    | .ok status ip _hostname =>
      if status = "active" then
        let acc := pollSweep poll elapsed rest lastLog
        ⟨acc.stillPending, (iid, ip) :: acc.newDetails, acc.lastLog, acc.logs, acc.fatal⟩
      else if status = "terminated" ∨ status = "terminating" then
        ⟨[], [], lastLog, [], some (.terminated ("Instance " ++ iid ++ " terminated unexpectedly"))⟩
      else
        let last := (lastLog.lookup iid).getD 0
        let (lastLog2, line) :=
          if shouldLog elapsed last then (setKey lastLog iid elapsed, [⟨iid, elapsed, status⟩])
          else (lastLog, [])
        let acc := pollSweep poll elapsed rest lastLog2
        ⟨iid :: acc.stillPending, acc.newDetails, acc.lastLog, line ++ acc.logs, acc.fatal⟩
    | .notFound =>
      let last := (lastLog.lookup iid).getD 0
      let (lastLog2, line) :=
        if shouldLog elapsed last then (setKey lastLog iid elapsed, [⟨iid, elapsed, "notfound"⟩])
        else (lastLog, [])
      let acc := pollSweep poll elapsed rest lastLog2
      ⟨iid :: acc.stillPending, acc.newDetails, acc.lastLog, line ++ acc.logs, acc.fatal⟩
    | .httpErr c => ⟨[], [], lastLog, [], some (.httpErr c)⟩

/-- Terminal outcome of wait_until_ready: all instances active with
their details, a RuntimeError from a terminated instance, a re-raised
HTTP error, or the TimeoutError naming the still-pending set.  fuelOut
is a modelling artifact of the bounded sweep budget and is unreachable
when the budget exceeds timeout divided by the poll interval. -/
inductive WaitOutcome where
  | ready (details : List (String × String))
  | terminated (message : String)
  | httpErr (code : Nat)
  | timedOut (elapsed : Nat) (pending : List String)
  | fuelOut (pending : List String)
deriving DecidableEq, Repr

/-- Outcome of a wait_until_ready run together with every throttled
status line printed along the way. -/
structure WaitResult where
  outcome : WaitOutcome
  logs : List LogLine
deriving DecidableEq, Repr

/-- Embeds the while loop of wait_until_ready.  poll is the status
oracle indexed by sweep number and instance id; elapsedAt gives the
int(time.time() - start_time) value observed at the head of each sweep
(under the fixed 5-second inter-sweep sleep this is 5 * sweep); the
loop runs while some instance is pending and elapsed is below timeout,
then raises the timeout error naming the pending set. -/
def waitLoop (poll : Nat → String → PollResult) (elapsedAt : Nat → Nat) (timeout : Nat) :
    Nat → Nat → List String → List (String × String) → List (String × Nat) →
    List LogLine → WaitResult
  | fuel, sweep, pending, details, lastLog, logs =>
    if pending = [] then ⟨.ready details, logs⟩
    else if timeout ≤ elapsedAt sweep then ⟨.timedOut (elapsedAt sweep) pending, logs⟩
    else
      match fuel with
      | 0 => ⟨.fuelOut pending, logs⟩
      | fuel + 1 =>
        let res := pollSweep (poll sweep) (elapsedAt sweep) pending lastLog
        match res.fatal with
        | some (.terminated m) => ⟨.terminated m, logs ++ res.logs⟩
        | some (.httpErr c) => ⟨.httpErr c, logs ++ res.logs⟩
        | none =>
          waitLoop poll elapsedAt timeout fuel (sweep + 1) res.stillPending
            (details ++ res.newDetails) res.lastLog (logs ++ res.logs)

/-- Embeds StartLambdaLabs.wait_until_ready: the loop starts with every
requested id pending, no details and an empty last-log dict. -/
def wait_until_ready (poll : Nat → String → PollResult) (elapsedAt : Nat → Nat)
    (timeout : Nat) (ids : List String) (fuel : Nat) : WaitResult :=
  waitLoop poll elapsedAt timeout fuel 0 ids [] [] []

/-- Does this poll response raise out of the sweep (a terminated or
terminating status, or a non-404 HTTP error)? -/
def fatalPoll : PollResult → Bool
  | .ok status _ _ => status = "terminated" || status = "terminating"
  | .notFound => false
  | .httpErr _ => true

/-! ## Theorems: the error classifier -/

/-- Codes in the non-retryable set belong to neither of the other two
code sets. -/
theorem nonretryable_code_not_in_other_sets {c : String}
    (h : NON_RETRYABLE_ERROR_CODES.contains c = true) :
    CAPACITY_ERROR_CODES.contains c = false ∧
    RATE_LIMIT_ERROR_CODES.contains c = false := by
  have hm : c ∈ NON_RETRYABLE_ERROR_CODES := by
    simpa using h
  simp only [NON_RETRYABLE_ERROR_CODES, List.mem_cons, List.not_mem_nil, or_false] at hm
  rcases hm with rfl | rfl | rfl | rfl | rfl | rfl | rfl | rfl | rfl | rfl <;> decide

/-- C2 (counterexample): the payload whose code is in the Configuration
set but whose message contains the word "capacity" is classified as a
CapacityError, not a ConfigurationError, because the message-substring
fallback is part of the same disjunction as the capacity code-set test
rather than being reserved for unrecognized codes. -/
theorem c2_counterexample :
    NON_RETRYABLE_ERROR_CODES.contains (normalizeCode "quota-exceeded") = true ∧
    classify_api_error { code := "quota-exceeded", message := "At capacity" } =
      .capacity "" "" "At capacity" := by
  decide

/-- C2 (amended): a payload whose normalized code is in the
Configuration (non-retryable) code set is classified ConfigurationError
when its message contains neither "capacity" nor "rate"
(case-insensitively); the substring search applies to every payload
whose code is outside the Capacity and RateLimit sets, including
Configuration-set codes. -/
theorem c2_configuration_code_classified (e : APIErrorBody)
    (hc : NON_RETRYABLE_ERROR_CODES.contains (normalizeCode e.code) = true)
    (hcap : containsWord (lowerStr e.message) "capacity" = false)
    (hrate : containsWord (lowerStr e.message) "rate" = false) :
    classify_api_error e = .configuration e.message := by
  obtain ⟨h1, h2⟩ := nonretryable_code_not_in_other_sets hc
  have h1m : normalizeCode e.code ∉ CAPACITY_ERROR_CODES := by simpa using h1
  have h2m : normalizeCode e.code ∉ RATE_LIMIT_ERROR_CODES := by simpa using h2
  have hcm : normalizeCode e.code ∈ NON_RETRYABLE_ERROR_CODES := by simpa using hc
  unfold classify_api_error
  simp [h1m, h2m, hcm, hcap, hrate]

/-- C2 (witness): the classifier sends the spec's own example payload,
code "quota-exceeded" with message "Quota exceeded", to
ConfigurationError. -/
theorem c2_witness :
    NON_RETRYABLE_ERROR_CODES.contains (normalizeCode "quota-exceeded") = true ∧
    containsWord (lowerStr "Quota exceeded") "capacity" = false ∧
    containsWord (lowerStr "Quota exceeded") "rate" = false ∧
    classify_api_error { code := "quota-exceeded", message := "Quota exceeded" } =
      .configuration "Quota exceeded" :=
  ⟨by decide, by decide, by decide,
    c2_configuration_code_classified
      { code := "quota-exceeded", message := "Quota exceeded" }
      (by decide) (by decide) (by decide)⟩

/-! ## Theorems: the availability filter -/

/-- C6: filter_available_options returns exactly the members of the
ordered instance-type-major cross-product whose region is listed as
available for the instance type; order within the caller-supplied lists
is preserved, and an instance type with zero available regions
contributes no pairs.  Moreover the concrete instance of the claim:
with availability a maps to nothing and b maps to r2, filtering
the lists [a, b] and [r1, r2] yields exactly [(b, r2)]. -/
theorem c6_filter_available_options_is_filtered_cross :
    (∀ (availability : List (String × List String)) (R G : List String),
      filter_available_options availability R G =
        (crossOptions R G).filter
          (fun p => ((availability.lookup p.1).getD []).contains p.2)) ∧
    filter_available_options [("a", []), ("b", ["r2"])] ["a", "b"] ["r1", "r2"] =
      [("b", "r2")] := by
  constructor
  · intro availability R G
    induction R with
    | nil => rfl
    | cons t rest ih =>
      simp only [filter_available_options, crossOptions, List.filter_append, ih]
      congr 1
      cases h : (availability.lookup t).getD [] with
      | nil =>
        simp [h]
      | cons a l =>
        rw [List.filter_map]
        simp [h, Function.comp_def]
  · decide

/-! ## Theorems: rate-limit backoff -/

/-- C4: below the retry ceiling (at least two range iterations left), a
rate-limited launch with a positive server retry-after hint appends its
row with the 1-based try index, sleeps exactly
max(retry_delay * 2 ^ (tryIndex - 1), retry_after), and continues with
the same option at the next try index; at the ceiling (one iteration
left) it appends its row and moves to the next option with no sleep;
and concretely, with ceiling 3 and base delay 1 an always-rate-limited
option sleeps 1 then 2 seconds across try indices 1, 2, 3, while a
server hint of 10 seconds overrides both computed delays. -/
theorem c4_rate_limit_backoff :
    (∀ (launch : Nat → LaunchResult) (rd : Rat) (t r nd m : String) (ra : Int)
        (k i calls : Nat),
      launch calls = .err (.rateLimit m (some ra)) → 0 < ra →
      launchRetries launch rd t r nd (k + 2) i calls =
        { calls := (launchRetries launch rd t r nd (k + 1) (i + 1) (calls + 1)).calls,
          attempts := { instance_type := t, region := r, attempt := i + 1, error := m } ::
            (launchRetries launch rd t r nd (k + 1) (i + 1) (calls + 1)).attempts,
          events := (launchRetries launch rd t r nd (k + 1) (i + 1) (calls + 1)).events,
          sleeps := max (rd * 2 ^ i) (ra : Rat) ::
            (launchRetries launch rd t r nd (k + 1) (i + 1) (calls + 1)).sleeps,
          outcome := (launchRetries launch rd t r nd (k + 1) (i + 1) (calls + 1)).outcome }) ∧
    (∀ (launch : Nat → LaunchResult) (rd : Rat) (t r nd m : String) (ra : Option Int)
        (i calls : Nat),
      launch calls = .err (.rateLimit m ra) →
      launchRetries launch rd t r nd 1 i calls =
        { calls := calls + 1,
          attempts := [{ instance_type := t, region := r, attempt := i + 1, error := m }],
          events := [], sleeps := [], outcome := .moveOn }) ∧
    ((launchRetries (fun _ => .err (.rateLimit "Rate limited" none))
        1 "t1" "r1" "" 3 0 0).sleeps = [1, 2] ∧
      (launchRetries (fun _ => .err (.rateLimit "Rate limited" none))
        1 "t1" "r1" "" 3 0 0).outcome = .moveOn ∧
      (launchRetries (fun _ => .err (.rateLimit "Rate limited" none))
        1 "t1" "r1" "" 3 0 0).attempts.map (fun a => a.attempt) = [1, 2, 3]) ∧
    (launchRetries (fun _ => .err (.rateLimit "Rate limited" (some 10)))
        1 "t1" "r1" "" 3 0 0).sleeps = [10, 10] := by
  refine ⟨?_, ?_, ?_, ?_⟩
  · intro launch rd t r nd m ra k i calls hl hpos
    have hra : ¬(ra = 0) := by omega
    simp only [launchRetries, hl]
    simp [hra, Nat.succ_ne_zero]
  · intro launch rd t r nd m ra i calls hl
    simp only [launchRetries, hl]
    simp
  · norm_num [launchRetries]
  · norm_num [launchRetries]

/-- C4 (witness): the below-ceiling branch of c4_rate_limit_backoff
instantiated at try index 1 with a server hint of 10 seconds. -/
theorem c4_witness :
    (fun _ : Nat => LaunchResult.err (.rateLimit "m" (some 10))) 0 =
      .err (.rateLimit "m" (some 10)) ∧
    (0 : Int) < 10 ∧
    launchRetries (fun _ => .err (.rateLimit "m" (some 10))) 1 "t" "r" "" 2 0 0 =
      { calls := (launchRetries (fun _ => .err (.rateLimit "m" (some 10)))
          1 "t" "r" "" 1 1 1).calls,
        attempts := { instance_type := "t", region := "r", attempt := 1, error := "m" } ::
          (launchRetries (fun _ => .err (.rateLimit "m" (some 10))) 1 "t" "r" "" 1 1 1).attempts,
        events := (launchRetries (fun _ => .err (.rateLimit "m" (some 10)))
          1 "t" "r" "" 1 1 1).events,
        sleeps := max ((1 : Rat) * 2 ^ 0) ((10 : Int) : Rat) ::
          (launchRetries (fun _ => .err (.rateLimit "m" (some 10))) 1 "t" "r" "" 1 1 1).sleeps,
        outcome := (launchRetries (fun _ => .err (.rateLimit "m" (some 10)))
          1 "t" "r" "" 1 1 1).outcome } :=
  ⟨rfl, by decide,
    c4_rate_limit_backoff.1 (fun _ => .err (.rateLimit "m" (some 10)))
      1 "t" "r" "" "m" 10 0 0 0 rfl (by decide)⟩

/-! ## Theorems: input validation of the provisioning engine -/

/-- C10: when any of the five required list or string inputs is empty,
or the action-ref environment input is unset or empty, create_instances
raises ValueError having made no availability query, no launch call, no
ledger append and no summary write, and returning no grants. -/
theorem c10_validation_before_side_effects (S : StartLambdaLabs)
    (action_ref : Option String) (availability : List (String × List String))
    (launch : Nat → LaunchResult)
    (h : S.gh_runner_tokens = [] ∨ S.runner_release = "" ∨ S.instance_types = [] ∨
      S.regions = [] ∨ S.ssh_key_names = [] ∨ action_ref.getD "" = "") :
    ∃ message, create_instances S action_ref availability launch =
      ⟨0, 0, [], [], [], [], [], .valueError message⟩ := by
  by_cases c1 : S.gh_runner_tokens = []
  · exact ⟨"No GitHub runner tokens provided",
      by simp [create_instances, valueErrorResult, c1]⟩
  by_cases c2 : S.runner_release = ""
  · exact ⟨"No runner release provided",
      by simp [create_instances, valueErrorResult, c1, c2]⟩
  by_cases c3 : S.instance_types = []
  · exact ⟨"No instance types provided",
      by simp [create_instances, valueErrorResult, c1, c2, c3]⟩
  by_cases c4 : S.regions = []
  · exact ⟨"No regions provided",
      by simp [create_instances, valueErrorResult, c1, c2, c3, c4]⟩
  by_cases c5 : S.ssh_key_names = []
  · exact ⟨"No SSH key names provided",
      by simp [create_instances, valueErrorResult, c1, c2, c3, c4, c5]⟩
  by_cases c6 : action_ref.getD "" = ""
  · exact ⟨"action_ref is required",
      by simp [create_instances, valueErrorResult, c1, c2, c3, c4, c5, c6]⟩
  rcases h with h | h | h | h | h | h <;> contradiction

/-- C10 (witness): the default parameter object (every list empty)
raises ValueError with the empty trace. -/
theorem c10_witness :
    (StartLambdaLabs.gh_runner_tokens {} = [] ∨
      StartLambdaLabs.runner_release {} = "" ∨
      StartLambdaLabs.instance_types {} = [] ∨
      StartLambdaLabs.regions {} = [] ∨
      StartLambdaLabs.ssh_key_names {} = [] ∨
      (none : Option String).getD "" = "") ∧
    ∃ message, create_instances {} none [] (fun _ => .ok "x") =
      ⟨0, 0, [], [], [], [], [], .valueError message⟩ :=
  ⟨Or.inl rfl,
    c10_validation_before_side_effects {} none [] (fun _ => .ok "x") (Or.inl rfl)⟩

/-! ## Theorems: the availability pre-check fail-fast path -/

/-- C5: with availability checking enabled and an empty filtered option
list, create_instances makes zero launch calls, appends one pre-check
ledger row for every pair of the full instance-type-by-region
cross-product, writes the failure summary, emits the all-exhausted
error, and raises with exactly those rows; every pre-check row carries
attempt 0 and the error text "No capacity (pre-check)". -/
theorem c5_precheck_exhaustion (S : StartLambdaLabs) (action_ref : Option String)
    (availability : List (String × List String)) (launch : Nat → LaunchResult)
    (h1 : S.gh_runner_tokens ≠ []) (h2 : S.runner_release ≠ "")
    (h3 : S.instance_types ≠ []) (h4 : S.regions ≠ [])
    (h5 : S.ssh_key_names ≠ []) (h6 : action_ref.getD "" ≠ "")
    (h7 : S.check_availability = true)
    (h8 : filter_available_options availability S.instance_types S.regions = []) :
    create_instances S action_ref availability launch =
      { availability_calls := 1, calls := 0,
        ledger := precheckLedger S.instance_types S.regions,
        events := [.allExhausted (precheckLedger S.instance_types S.regions)],
        sleeps := [], summaries := [false], grants := [],
        outcome := .allExhausted (precheckLedger S.instance_types S.regions) } ∧
    (precheckLedger S.instance_types S.regions).map
        (fun a => (a.instance_type, a.region)) =
      crossOptions S.instance_types S.regions ∧
    ∀ a ∈ precheckLedger S.instance_types S.regions,
      a.attempt = 0 ∧ a.error = "No capacity (pre-check)" := by
  refine ⟨?_, ?_, ?_⟩
  · unfold create_instances
    simp [h1, h2, h3, h4, h5, h6, h7, h8]
  · simp [precheckLedger, List.map_map, Function.comp_def]
  · intro a ha
    simp only [precheckLedger, List.mem_map] at ha
    obtain ⟨p, _, rfl⟩ := ha
    exact ⟨rfl, rfl⟩

/-- C5 (witness): one requested type and region with no availability
anywhere fails fast with the single pre-check row. -/
theorem c5_witness :
    create_instances
        { instance_types := ["t1"], regions := ["r1"], ssh_key_names := ["k"],
          gh_runner_tokens := ["tok"], runner_release := "v1" }
        (some "main") [("t1", [])] (fun _ => .ok "x") =
      { availability_calls := 1, calls := 0,
        ledger := precheckLedger ["t1"] ["r1"],
        events := [.allExhausted (precheckLedger ["t1"] ["r1"])],
        sleeps := [], summaries := [false], grants := [],
        outcome := .allExhausted (precheckLedger ["t1"] ["r1"]) } :=
  (c5_precheck_exhaustion
    { instance_types := ["t1"], regions := ["r1"], ssh_key_names := ["k"],
      gh_runner_tokens := ["tok"], runner_release := "v1" }
    (some "main") [("t1", [])] (fun _ => .ok "x")
    (by decide) (by decide) (by decide) (by decide) (by decide) (by decide)
    rfl (by decide)).1

/-! ## Theorems: the uncaught Unknown classification -/

/-- C1 (counterexample): with two candidate options and a launch failure
whose classification is the base (Unknown) error, the run aborts with
the base error after a single launch call, recording no ledger row —
the claim's generic-failure ledger entry and advance to the next option
do not happen even though a second option remained. -/
theorem c1_counterexample :
    (create_instances
        { instance_types := ["t1"], regions := ["r1", "r2"], ssh_key_names := ["k"],
          gh_runner_tokens := ["tok"], runner_release := "v1",
          check_availability := false }
        (some "main") [] (fun _ => .err (.base "boom"))).ledger = [] ∧
    (create_instances
        { instance_types := ["t1"], regions := ["r1", "r2"], ssh_key_names := ["k"],
          gh_runner_tokens := ["tok"], runner_release := "v1",
          check_availability := false }
        (some "main") [] (fun _ => .err (.base "boom"))).calls = 1 ∧
    (create_instances
        { instance_types := ["t1"], regions := ["r1", "r2"], ssh_key_names := ["k"],
          gh_runner_tokens := ["tok"], runner_release := "v1",
          check_availability := false }
        (some "main") [] (fun _ => .err (.base "boom"))).outcome = .baseError "boom" ∧
    crossOptions ["t1"] ["r1", "r2"] = [("t1", "r1"), ("t1", "r2")] := by
  decide

/-- C1 (amended): a first launch failure classified as Unknown raises
the base error, which no except clause of the engine catches: the whole
multi-identity run aborts immediately — regardless of how many options
remain — with no ledger row recorded for the attempt, no summary
written, and no annotation emitted. -/
theorem c1_unknown_error_aborts_run (S : StartLambdaLabs) (action_ref : Option String)
    (availability : List (String × List String)) (launch : Nat → LaunchResult)
    (m : String)
    (h1 : S.gh_runner_tokens ≠ []) (h2 : S.runner_release ≠ "")
    (h3 : S.instance_types ≠ []) (h4 : S.regions ≠ [])
    (h5 : S.ssh_key_names ≠ []) (h6 : action_ref.getD "" ≠ "")
    (h7 : S.check_availability = false) (h8 : 1 ≤ S.retry_count)
    (hl : launch 0 = .err (.base m)) :
    create_instances S action_ref availability launch =
      ⟨0, 1, [], [], [], [], [], .baseError m⟩ := by
  obtain ⟨tok, toks, htoks⟩ := List.exists_cons_of_ne_nil h1
  obtain ⟨t, ts, hts⟩ := List.exists_cons_of_ne_nil h3
  obtain ⟨r, rs, hrs⟩ := List.exists_cons_of_ne_nil h4
  obtain ⟨k, hk⟩ : ∃ k, S.retry_count = k + 1 := ⟨S.retry_count - 1, by omega⟩
  unfold create_instances
  rw [htoks, hts, hrs, hk]
  simp only [reduceCtorEq, if_neg, h2, h5, h6, h7, if_false, Bool.false_eq_true,
    false_and, List.length_cons]
  simp [crossOptions, runTokens, walkOptions, launchRetries, hl, finishRun, h2, h5, h6]

/-- C1 (witness): the amended statement instantiated at the
counterexample's run. -/
theorem c1_witness :
    create_instances
        { instance_types := ["t1"], regions := ["r1", "r2"], ssh_key_names := ["k"],
          gh_runner_tokens := ["tok"], runner_release := "v1",
          check_availability := false }
        (some "main") [] (fun _ => .err (.base "unknown failure")) =
      ⟨0, 1, [], [], [], [], [], .baseError "unknown failure"⟩ :=
  c1_unknown_error_aborts_run
    { instance_types := ["t1"], regions := ["r1", "r2"], ssh_key_names := ["k"],
      gh_runner_tokens := ["tok"], runner_release := "v1",
      check_availability := false }
    (some "main") [] (fun _ => .err (.base "unknown failure")) "unknown failure"
    (by decide) (by decide) (by decide) (by decide) (by decide) (by decide)
    rfl (by decide) rfl

/-! ## Theorems: summaries on fatal paths -/

/-- Helper for the engine tail: whenever finishRun raises the
all-exhausted error, the failure summary was written and the
all-exhausted annotation emitted with the same attempts. -/
theorem finishRun_allExhausted {acalls : Nat} {res : TokensResult}
    {att : List LaunchAttempt}
    (h : (finishRun acalls res).outcome = .allExhausted att) :
    (finishRun acalls res).summaries = [false] ∧
    Emitted.allExhausted att ∈ (finishRun acalls res).events := by
  unfold finishRun at h ⊢
  rcases hf : res.fatal with _ | lf <;> rw [hf] at h
  · by_cases hg : res.grants = []
    · simp only [hg, reduceIte] at h ⊢
      simp only [RunOutcome.allExhausted.injEq] at h
      subst h
      simp
    · simp [hg] at h
  · cases lf <;> simp at h

/-- C3 (counterexample): a ConfigurationError-classified launch failure
propagates out of create_instances with no summary written — the
Configuration-classified abort is a fatal path that does not render a
launch summary. -/
theorem c3_counterexample :
    (create_instances
        { instance_types := ["t1"], regions := ["r1", "r2"], ssh_key_names := ["k"],
          gh_runner_tokens := ["tok"], runner_release := "v1",
          check_availability := false }
        (some "main") [] (fun _ => .err (.configuration "bad ssh key"))).outcome =
      .configError "bad ssh key" ∧
    (create_instances
        { instance_types := ["t1"], regions := ["r1", "r2"], ssh_key_names := ["k"],
          gh_runner_tokens := ["tok"], runner_release := "v1",
          check_availability := false }
        (some "main") [] (fun _ => .err (.configuration "bad ssh key"))).summaries = [] := by
  decide

/-- C3 (amended): on the all-options-exhausted fatal paths — the empty
pre-check filter and the zero-grants end of the token loop — a summary
is written (failure summary, exactly once) and the all-exhausted error
annotation naming the same attempts is emitted before the exception
propagates; the Configuration-classified abort (and the uncaught
Unknown abort) propagates without rendering a summary. -/
theorem c3_summary_on_exhausted_paths (S : StartLambdaLabs) (action_ref : Option String)
    (availability : List (String × List String)) (launch : Nat → LaunchResult)
    (att : List LaunchAttempt)
    (h : (create_instances S action_ref availability launch).outcome = .allExhausted att) :
    (create_instances S action_ref availability launch).summaries = [false] ∧
    Emitted.allExhausted att ∈ (create_instances S action_ref availability launch).events := by
  by_cases c1 : S.gh_runner_tokens = []
  · simp [create_instances, valueErrorResult, c1] at h
  by_cases c2 : S.runner_release = ""
  · simp [create_instances, valueErrorResult, c1, c2] at h
  by_cases c3 : S.instance_types = []
  · simp [create_instances, valueErrorResult, c1, c2, c3] at h
  by_cases c4 : S.regions = []
  · simp [create_instances, valueErrorResult, c1, c2, c3, c4] at h
  by_cases c5 : S.ssh_key_names = []
  · simp [create_instances, valueErrorResult, c1, c2, c3, c4, c5] at h
  by_cases c6 : action_ref.getD "" = ""
  · simp [create_instances, valueErrorResult, c1, c2, c3, c4, c5, c6] at h
  by_cases hca : S.check_availability
  · by_cases hfe : filter_available_options availability S.instance_types S.regions = []
    · have hcr : create_instances S action_ref availability launch =
          ⟨1, 0, precheckLedger S.instance_types S.regions,
            [.allExhausted (precheckLedger S.instance_types S.regions)], [], [false], [],
            .allExhausted (precheckLedger S.instance_types S.regions)⟩ := by
        unfold create_instances
        simp [c1, c2, c3, c4, c5, c6, hca, hfe]
      rw [hcr] at h ⊢
      simp only [RunOutcome.allExhausted.injEq] at h
      subst h
      simp
    · have hcr : create_instances S action_ref availability launch =
          finishRun 1 (runTokens launch S.retry_count S.retry_delay
            (filter_available_options availability S.instance_types S.regions)
            S.gh_runner_tokens.length 0) := by
        unfold create_instances
        simp [c1, c2, c3, c4, c5, c6, hca, hfe]
      rw [hcr] at h ⊢
      exact finishRun_allExhausted h
  · have hcr : create_instances S action_ref availability launch =
        finishRun 0 (runTokens launch S.retry_count S.retry_delay
          (crossOptions S.instance_types S.regions)
          S.gh_runner_tokens.length 0) := by
      unfold create_instances
      simp [c1, c2, c3, c4, c5, c6, hca]
    rw [hcr] at h ⊢
    exact finishRun_allExhausted h

/-- C3 (witness): a run in which every option fails on capacity ends in
the all-exhausted raise with the failure summary written and the
annotation emitted. -/
theorem c3_witness :
    (create_instances
        { instance_types := ["t1"], regions := ["r1"], ssh_key_names := ["k"],
          gh_runner_tokens := ["tok"], runner_release := "v1",
          check_availability := false }
        (some "main") [] (fun _ => .err (.capacity "" "" "no capacity here"))).outcome =
      .allExhausted
        [{ instance_type := "t1", region := "r1", attempt := 1,
           error := "no capacity here" }] ∧
    (create_instances
        { instance_types := ["t1"], regions := ["r1"], ssh_key_names := ["k"],
          gh_runner_tokens := ["tok"], runner_release := "v1",
          check_availability := false }
        (some "main") [] (fun _ => .err (.capacity "" "" "no capacity here"))).summaries =
      [false] ∧
    Emitted.allExhausted
        [{ instance_type := "t1", region := "r1", attempt := 1,
           error := "no capacity here" }] ∈
      (create_instances
        { instance_types := ["t1"], regions := ["r1"], ssh_key_names := ["k"],
          gh_runner_tokens := ["tok"], runner_release := "v1",
          check_availability := false }
        (some "main") [] (fun _ => .err (.capacity "" "" "no capacity here"))).events :=
  ⟨by decide,
    c3_summary_on_exhausted_paths
      { instance_types := ["t1"], regions := ["r1"], ssh_key_names := ["k"],
        gh_runner_tokens := ["tok"], runner_release := "v1",
        check_availability := false }
      (some "main") [] (fun _ => .err (.capacity "" "" "no capacity here"))
      [{ instance_type := "t1", region := "r1", attempt := 1,
         error := "no capacity here" }]
      (by decide)⟩

/-! ## Theorems: ledger try indices -/

/-- Rows appended by the retry loop always carry the 1-based try index
retryIdx + 1. -/
theorem launchRetries_attempt_pos (launch : Nat → LaunchResult) (rd : Rat)
    (t r nd : String) :
    ∀ (n i calls : Nat) (row : LaunchAttempt),
      row ∈ (launchRetries launch rd t r nd n i calls).attempts → 1 ≤ row.attempt := by
  intro n
  induction n with
  | zero =>
    intro i calls row hrow
    simp [launchRetries] at hrow
  | succ k ih =>
    intro i calls row hrow
    simp only [launchRetries] at hrow
    cases hl : launch calls with
    | ok iid =>
      rw [hl] at hrow
      simp only [List.mem_singleton] at hrow
      subst hrow
      exact Nat.le_add_left 1 i
    | err e =>
      cases e with
      | capacity et er em =>
        rw [hl] at hrow
        simp only [List.mem_singleton] at hrow
        subst hrow
        exact Nat.le_add_left 1 i
      | rateLimit m ra =>
        rw [hl] at hrow
        by_cases hk : k = 0
        · simp only [hk, reduceIte] at hrow
          simp only [List.mem_singleton] at hrow
          subst hrow
          exact Nat.le_add_left 1 i
        · simp only [hk, reduceIte, List.mem_cons] at hrow
          rcases hrow with rfl | hrow
          · exact Nat.le_add_left 1 i
          · exact ih (i + 1) (calls + 1) row hrow
      | configuration m =>
        rw [hl] at hrow
        simp only [List.mem_singleton] at hrow
        subst hrow
        exact Nat.le_add_left 1 i
      | base m =>
        rw [hl] at hrow
        simp at hrow

/-- Rows collected by the option walk of one token all come from the
retry loop, so they carry try indices of at least 1. -/
theorem walkOptions_attempt_pos (launch : Nat → LaunchResult) (rc : Nat) (rd : Rat)
    (allOptions : List (String × String)) :
    ∀ (rem : List (String × String)) (calls : Nat) (row : LaunchAttempt),
      row ∈ (walkOptions launch rc rd allOptions rem calls).attempts → 1 ≤ row.attempt := by
  intro rem
  induction rem with
  | nil =>
    intro calls row hrow
    simp [walkOptions] at hrow
  | cons p rest ih =>
    intro calls row hrow
    obtain ⟨t, r⟩ := p
    simp only [walkOptions] at hrow
    rcases ho : (launchRetries launch rd t r
        (get_next_option_from_list allOptions t r) rc 0 calls).outcome with
      iid | _ | m | m <;> rw [ho] at hrow
    · exact launchRetries_attempt_pos launch rd t r _ rc 0 calls row hrow
    · simp only [List.mem_append] at hrow
      rcases hrow with hrow | hrow
      · exact launchRetries_attempt_pos launch rd t r _ rc 0 calls row hrow
      · exact ih _ row hrow
    · exact launchRetries_attempt_pos launch rd t r _ rc 0 calls row hrow
    · exact launchRetries_attempt_pos launch rd t r _ rc 0 calls row hrow

/-- Ledger rows collected by the token loop all carry try indices of at
least 1. -/
theorem runTokens_attempt_pos (launch : Nat → LaunchResult) (rc : Nat) (rd : Rat)
    (options : List (String × String)) :
    ∀ (n calls : Nat) (row : LaunchAttempt),
      row ∈ (runTokens launch rc rd options n calls).ledger → 1 ≤ row.attempt := by
  intro n
  induction n with
  | zero =>
    intro calls row hrow
    simp [runTokens] at hrow
  | succ k ih =>
    intro calls row hrow
    simp only [runTokens] at hrow
    cases ho : (walkOptions launch rc rd options options calls).outcome with
    | success iid t r =>
      rw [ho] at hrow
      simp only [List.mem_append] at hrow
      rcases hrow with hrow | hrow
      · exact walkOptions_attempt_pos launch rc rd options options calls row hrow
      · exact ih _ row hrow
    | exhausted =>
      rw [ho] at hrow
      simp only [List.mem_append] at hrow
      rcases hrow with hrow | hrow
      · exact walkOptions_attempt_pos launch rc rd options options calls row hrow
      · exact ih _ row hrow
    | fatalConfig m =>
      rw [ho] at hrow
      exact walkOptions_attempt_pos launch rc rd options options calls row hrow
    | fatalBase m =>
      rw [ho] at hrow
      simp at hrow

/-- The engine tail never adds ledger rows: finishRun passes the token
loop's ledger through unchanged. -/
theorem finishRun_ledger (acalls : Nat) (res : TokensResult) :
    (finishRun acalls res).ledger = res.ledger := by
  unfold finishRun
  rcases res.fatal with _ | lf
  · by_cases hg : res.grants = []
    · simp [hg]
    · simp [hg]
  · cases lf <;> rfl

/-- C7 (counterexample): the pre-check fail-fast path appends a ledger
row whose attempt index is 0, so not every appended row has a 1-based
try index. -/
theorem c7_counterexample :
    (create_instances
        { instance_types := ["t1"], regions := ["r1"], ssh_key_names := ["k"],
          gh_runner_tokens := ["tok"], runner_release := "v1" }
        (some "main") [("t1", [])] (fun _ => .ok "x")).ledger.map
      (fun a => a.attempt) = [0] := by
  decide

/-- C7 (amended): every ledger row appended by an actual launch try
carries a 1-based try index (attempt at least 1); the rows appended by
the availability pre-check fail-fast path instead carry attempt 0
together with the error text "No capacity (pre-check)" and an unset
success flag.  (Rows are values fixed at append time in this embedding;
the source never mutates a row after appending it.) -/
theorem c7_ledger_attempt_indices (S : StartLambdaLabs) (action_ref : Option String)
    (availability : List (String × List String)) (launch : Nat → LaunchResult) :
    ∀ row ∈ (create_instances S action_ref availability launch).ledger,
      1 ≤ row.attempt ∨
        (row.attempt = 0 ∧ row.error = "No capacity (pre-check)" ∧
          row.success = false) := by
  intro row hrow
  by_cases c1 : S.gh_runner_tokens = []
  · simp [create_instances, valueErrorResult, c1] at hrow
  by_cases c2 : S.runner_release = ""
  · simp [create_instances, valueErrorResult, c1, c2] at hrow
  by_cases c3 : S.instance_types = []
  · simp [create_instances, valueErrorResult, c1, c2, c3] at hrow
  by_cases c4 : S.regions = []
  · simp [create_instances, valueErrorResult, c1, c2, c3, c4] at hrow
  by_cases c5 : S.ssh_key_names = []
  · simp [create_instances, valueErrorResult, c1, c2, c3, c4, c5] at hrow
  by_cases c6 : action_ref.getD "" = ""
  · simp [create_instances, valueErrorResult, c1, c2, c3, c4, c5, c6] at hrow
  by_cases hca : S.check_availability
  · by_cases hfe : filter_available_options availability S.instance_types S.regions = []
    · have hcr : (create_instances S action_ref availability launch).ledger =
          precheckLedger S.instance_types S.regions := by
        unfold create_instances
        simp [c1, c2, c3, c4, c5, c6, hca, hfe]
      rw [hcr] at hrow
      simp only [precheckLedger, List.mem_map] at hrow
      obtain ⟨p, _, rfl⟩ := hrow
      exact Or.inr ⟨rfl, rfl, rfl⟩
    · have hcr : (create_instances S action_ref availability launch).ledger =
          (runTokens launch S.retry_count S.retry_delay
            (filter_available_options availability S.instance_types S.regions)
            S.gh_runner_tokens.length 0).ledger := by
        unfold create_instances
        simp [c1, c2, c3, c4, c5, c6, hca, hfe, finishRun_ledger]
      rw [hcr] at hrow
      exact Or.inl (runTokens_attempt_pos launch S.retry_count S.retry_delay _ _ 0 row hrow)
  · have hcr : (create_instances S action_ref availability launch).ledger =
        (runTokens launch S.retry_count S.retry_delay
          (crossOptions S.instance_types S.regions)
          S.gh_runner_tokens.length 0).ledger := by
      unfold create_instances
      simp [c1, c2, c3, c4, c5, c6, hca, finishRun_ledger]
    rw [hcr] at hrow
    exact Or.inl (runTokens_attempt_pos launch S.retry_count S.retry_delay _ _ 0 row hrow)

/-- C7 (witness): the amended statement instantiated at a run whose one
attempted launch failed on capacity, with the concrete appended row. -/
theorem c7_witness :
    (⟨"t1", "r1", 1, false, "no capacity left", ""⟩ : LaunchAttempt) ∈
      (create_instances
        { instance_types := ["t1"], regions := ["r1"], ssh_key_names := ["k"],
          gh_runner_tokens := ["tok"], runner_release := "v1",
          check_availability := false }
        (some "main") [] (fun _ => .err (.capacity "" "" "no capacity left"))).ledger ∧
    (1 ≤ (⟨"t1", "r1", 1, false, "no capacity left", ""⟩ : LaunchAttempt).attempt ∨
      ((⟨"t1", "r1", 1, false, "no capacity left", ""⟩ : LaunchAttempt).attempt = 0 ∧
        (⟨"t1", "r1", 1, false, "no capacity left", ""⟩ : LaunchAttempt).error =
          "No capacity (pre-check)" ∧
        (⟨"t1", "r1", 1, false, "no capacity left", ""⟩ : LaunchAttempt).success =
          false)) :=
  ⟨by decide,
    c7_ledger_attempt_indices
      { instance_types := ["t1"], regions := ["r1"], ssh_key_names := ["k"],
        gh_runner_tokens := ["tok"], runner_release := "v1",
        check_availability := false }
      (some "main") [] (fun _ => .err (.capacity "" "" "no capacity left"))
      ⟨"t1", "r1", 1, false, "no capacity left", ""⟩
      (by decide)⟩

/-! ## Theorems: the readiness poller -/

/-- Within one sweep, the first pending instance whose status is
terminated or terminating raises, provided no earlier instance of the
sweep raised first; later instances of the sweep are never polled. -/
theorem pollSweep_terminated (poll : String → PollResult) (elapsed : Nat)
    (iid st ip hn : String) (l2 : List String)
    (hp : poll iid = .ok st ip hn) (hst : st = "terminated" ∨ st = "terminating") :
    ∀ (l1 : List String) (lastLog : List (String × Nat)),
      (∀ j ∈ l1, fatalPoll (poll j) = false) →
      (pollSweep poll elapsed (l1 ++ iid :: l2) lastLog).fatal =
        some (.terminated ("Instance " ++ iid ++ " terminated unexpectedly")) := by
  intro l1
  induction l1 with
  | nil =>
    intro lastLog _
    have hna : ¬st = "active" := by rcases hst with rfl | rfl <;> decide
    simp only [List.nil_append, pollSweep, hp]
    rw [if_neg hna, if_pos hst]
  | cons j l1 ih =>
    intro lastLog hall
    have hj : fatalPoll (poll j) = false := hall j (List.mem_cons_self j l1)
    have hrest : ∀ x ∈ l1, fatalPoll (poll x) = false :=
      fun x hx => hall x (List.mem_cons_of_mem j hx)
    simp only [List.cons_append, pollSweep]
    cases hpj : poll j with
    | ok s2 ip2 hn2 =>
      rw [hpj] at hj
      simp only [fatalPoll, Bool.or_eq_false_iff, decide_eq_false_iff_not] at hj
      have hterm : ¬(s2 = "terminated" ∨ s2 = "terminating") := by
        intro hc
        rcases hc with hc | hc
        · exact hj.1 hc
        · exact hj.2 hc
      by_cases hs2 : s2 = "active"
      · subst hs2
        simp only [reduceIte]
        exact ih lastLog hrest
      · simp only [hs2, hterm, reduceIte]
        cases hsl : shouldLog elapsed ((lastLog.lookup j).getD 0) <;>
          simp only [hsl, reduceIte, Bool.false_eq_true] <;> exact ih _ hrest
    | notFound =>
      cases hsl : shouldLog elapsed ((lastLog.lookup j).getD 0) <;>
        simp only [hsl, reduceIte, Bool.false_eq_true] <;> exact ih _ hrest
    | httpErr c =>
      rw [hpj] at hj
      simp [fatalPoll] at hj

/-- C8: if, on the first sweep, some pending instance reports a
terminated or terminating status (and no instance polled before it in
the sweep raises first), wait_until_ready raises immediately with the
RuntimeError naming that instance, aborting the wait for every
instance — including any listed after it that are never polled, and
regardless of how much of the timeout budget remains. -/
theorem c8_terminated_aborts_wait (poll : Nat → String → PollResult)
    (elapsedAt : Nat → Nat) (timeout fuel : Nat) (l1 l2 : List String)
    (iid st ip hn : String)
    (hp : poll 0 iid = .ok st ip hn)
    (hst : st = "terminated" ∨ st = "terminating")
    (hbefore : ∀ j ∈ l1, fatalPoll (poll 0 j) = false)
    (htime : elapsedAt 0 < timeout) :
    (wait_until_ready poll elapsedAt timeout (l1 ++ iid :: l2) (fuel + 1)).outcome =
      .terminated ("Instance " ++ iid ++ " terminated unexpectedly") := by
  have hne : ¬(l1 ++ iid :: l2 = []) := by simp
  have hsweep := pollSweep_terminated (poll 0) (elapsedAt 0) iid st ip hn l2 hp hst l1 [] hbefore
  unfold wait_until_ready
  rw [waitLoop, if_neg hne, if_neg (by omega)]
  simp only [hsweep]

/-- C8 (witness): two pending instances, the first still booting and the
second terminated on the first sweep: the wait aborts naming the second
instance while the first is still pending. -/
theorem c8_witness :
    ((fun (_ : Nat) (j : String) =>
        if j = "a" then PollResult.ok "booting" "" ""
        else PollResult.ok "terminated" "" "") 0 "b" =
      PollResult.ok "terminated" "" "") ∧
    ("terminated" = "terminated" ∨ "terminated" = "terminating") ∧
    (∀ j ∈ ["a"], fatalPoll
      ((fun (_ : Nat) (j2 : String) =>
        if j2 = "a" then PollResult.ok "booting" "" ""
        else PollResult.ok "terminated" "" "") 0 j) = false) ∧
    ((fun k => 5 * k) 0 < 600) ∧
    (wait_until_ready
        (fun (_ : Nat) (j : String) =>
          if j = "a" then PollResult.ok "booting" "" ""
          else PollResult.ok "terminated" "" "")
        (fun k => 5 * k) 600 (["a"] ++ "b" :: []) (1 + 1)).outcome =
      .terminated ("Instance " ++ "b" ++ " terminated unexpectedly") :=
  ⟨by decide, Or.inl rfl, by decide, by decide,
    c8_terminated_aborts_wait
      (fun (_ : Nat) (j : String) =>
        if j = "a" then PollResult.ok "booting" "" ""
        else PollResult.ok "terminated" "" "")
      (fun k => 5 * k) 600 1 ["a"] [] "b" "terminated" "" ""
      (by decide) (Or.inl rfl) (by decide) (by decide)⟩

/-- C9: evaluation of the readiness poller at the failing input of the
throttling comment ("Log every 30s to reduce spam, but always log first
status").  A single instance that is pending on the sweeps at elapsed 0
and 5 seconds and active at 10 seconds produces two pending-status log
lines only 5 seconds apart: because the first line is recorded at
elapsed 0, the stored last-log time 0 is indistinguishable from the
never-logged sentinel 0, so the second sweep logs again inside the
30-second interval.  By contrast a pending status followed by "active"
on the next sweep yields exactly one pending log line, as the claim's
concrete example states. -/
theorem c9_throttle_sentinel_double_log :
    wait_until_ready
        (fun k _ => if k ≤ 1 then .ok "booting" "" "" else .ok "active" "1.2.3.4" "host")
        (fun k => 5 * k) 600 ["i"] 5 =
      ⟨.ready [("i", "1.2.3.4")],
        [⟨"i", 0, "booting"⟩, ⟨"i", 5, "booting"⟩]⟩ ∧
    wait_until_ready
        (fun k _ => if k = 0 then .ok "booting" "" "" else .ok "active" "1.2.3.4" "host")
        (fun k => 5 * k) 600 ["i"] 5 =
      ⟨.ready [("i", "1.2.3.4")], [⟨"i", 0, "booting"⟩]⟩ := by
  constructor <;> decide

end LambdaGha
